import Mathlib

/-!
Verification development for the monobase repository's template registrar
(`src/services/api/src/handlers/auth/templates/email/loader.ts`,
`registerTemplates`) and build-constants pipeline (the build script:
`generateBuildConstants`, `getGitCommit`, `getGitBranch`,
`getPackageVersion`, `constantsToDefineArgs`).

The registrar is embedded as a state-passing function over an abstract
store interface; throwing store calls are modelled as `Except` results,
and the registrar's per-template `try`/`catch` is the handler that turns
a failed iteration into a skipped one.  Each store call performed is
recorded in an event trace so that call-count properties can be stated.
-/

/- ===================== Template registrar: data model ===================== -/

/-- Variable specification of a template, mirroring the `TemplateVariable`
fields used by the static template definitions in `loader.ts`
(`id`, `type`, `label`, `required`, `defaultValue`, `minLength`, `maxLength`). -/
structure TemplateVariable where
  id : String
  type : String
  label : String
  required : Bool
  defaultValue : Option Int := none
  minLength : Option Nat := none
  maxLength : Option Nat := none
deriving DecidableEq, Repr

/-- `TemplateMetadata` from `utils/email` (second part of the loader file). -/
structure TemplateMetadata where
  name : String
  description : String
  subject : String
  tags : List String
  «variables» : List TemplateVariable
  fromName : Option String := none
  fromEmail : Option String := none
  replyToEmail : Option String := none
  replyToName : Option String := none
deriving DecidableEq, Repr

/-- Content part of a `TemplateDefinition` (`html` required, `text` optional). -/
structure TemplateContent where
  html : String
  text : Option String := none
deriving DecidableEq, Repr

/-- `TemplateDefinition` from `utils/email`. -/
structure TemplateDefinition where
  metadata : TemplateMetadata
  content : TemplateContent
deriving DecidableEq, Repr

/-- `NewEmailTemplate`: the persisted-record shape the registrar constructs
(`templateDef` in `registerTemplates`) and hands to `createTemplate`. -/
structure NewEmailTemplate where
  name : String
  description : String
  subject : String
  bodyHtml : String
  bodyText : Option String
  tags : List String
  «variables» : List TemplateVariable
  fromName : Option String
  fromEmail : Option String
  replyToEmail : Option String
  replyToName : Option String
  status : String
deriving DecidableEq, Repr

/-- One store call made by the registrar: an existence query for a tag set,
or an insert of a constructed record.  A call is recorded whether or not
it succeeds. -/
inductive StoreEvent where
  | findManyCall (tags : List String)
  | createCall (t : NewEmailTemplate)
deriving DecidableEq, Repr

/-- The store operations the registrar consumes from the
`EmailTemplateRepository` collaborator, over a store state `σ`.  Either
call may fail with an error of type `ε` (a thrown exception).
`findMany` takes the tag filter plus the pagination limit and offset;
`createTemplate` returns the created record and the updated store. -/
structure StoreOps (σ ε : Type) where
  findMany : List String → Nat → Nat → σ → Except ε (List NewEmailTemplate)
  createTemplate : NewEmailTemplate → σ → Except ε (NewEmailTemplate × σ)

/-- The record `registerTemplates` builds from a definition before
inserting it (`templateDef` in the source): every metadata/content field
is copied verbatim and `status` is set to `"active"`. -/
def mkNewTemplate (d : TemplateDefinition) : NewEmailTemplate :=
  { name := d.metadata.name
    description := d.metadata.description
    subject := d.metadata.subject
    bodyHtml := d.content.html
    bodyText := d.content.text
    tags := d.metadata.tags
    «variables» := d.metadata.«variables»
    fromName := d.metadata.fromName
    fromEmail := d.metadata.fromEmail
    replyToEmail := d.metadata.replyToEmail
    replyToName := d.metadata.replyToName
    status := "active" }

/-- Body of one iteration of the registrar's loop, without the `catch`:
query `findMany` with the definition's tags and `limit 1, offset 0`;
if a record exists, skip; otherwise insert `mkNewTemplate d`.
An error result carries the trace of calls already attempted, so a
thrown `findMany` records its call and a thrown `createTemplate`
records both calls. -/
def registerOneBody {σ ε : Type} (ops : StoreOps σ ε) (d : TemplateDefinition)
    (s : σ) : Except (ε × List StoreEvent) (σ × List StoreEvent) :=
  match ops.findMany d.metadata.tags 1 0 s with
  | Except.error e => Except.error (e, [StoreEvent.findManyCall d.metadata.tags])
  | Except.ok existing =>
    if existing.length > 0 then
      Except.ok (s, [StoreEvent.findManyCall d.metadata.tags])
    else
      match ops.createTemplate (mkNewTemplate d) s with
      | Except.error e =>
        Except.error (e, [StoreEvent.findManyCall d.metadata.tags,
                          StoreEvent.createCall (mkNewTemplate d)])
      | Except.ok (_, s2) =>
        Except.ok (s2, [StoreEvent.findManyCall d.metadata.tags,
                        StoreEvent.createCall (mkNewTemplate d)])

/-- One iteration of the registrar's loop with its `try`/`catch`: an error
is caught (logged in the source) and leaves the store unchanged. -/
def tryRegister {σ ε : Type} (ops : StoreOps σ ε) (d : TemplateDefinition)
    (s : σ) : σ × List StoreEvent :=
  match registerOneBody ops d s with
  | Except.ok r => r
  | Except.error (_, evs) => (s, evs)

/-- `registerTemplates`: process the definitions in order, each with the
caught per-template body, threading the store and concatenating the
call traces. -/
def registerTemplates {σ ε : Type} (ops : StoreOps σ ε) :
    List TemplateDefinition → σ → σ × List StoreEvent
  | [], s => (s, [])
  | d :: rest, s =>
    let p := tryRegister ops d s
    let q := registerTemplates ops rest p.1
    (q.1, p.2 ++ q.2)

/-- The registrar's loop with exception propagation made explicit: the
value mirrors `registerTemplates` as written in the source, where each
iteration's body may throw and the `catch` inside the loop is the only
handler.  An uncaught error anywhere would surface as `Except.error`. -/
def registerTemplatesE {σ ε : Type} (ops : StoreOps σ ε) :
    List TemplateDefinition → σ → Except ε (σ × List StoreEvent)
  | [], s => Except.ok (s, [])
  | d :: rest, s =>
    match registerOneBody ops d s with
    | Except.ok (s2, evs) =>
      match registerTemplatesE ops rest s2 with
      | Except.ok (s3, evs2) => Except.ok (s3, evs ++ evs2)
      | Except.error e => Except.error e
    | Except.error (_, evs) =>
      match registerTemplatesE ops rest s with
      | Except.ok (s3, evs2) => Except.ok (s3, evs ++ evs2)
      | Except.error e => Except.error e

/-- Constructing the repository (`new EmailTemplateRepository(db, logger)`)
happens before the loop's `try`; if it throws, `registerTemplates`
throws.  `mkRepo` is the outcome of that construction. -/
def registerTemplatesTop {σ ε : Type} (mkRepo : Except ε (StoreOps σ ε))
    (templates : List TemplateDefinition) (s : σ) :
    Except ε (σ × List StoreEvent) :=
  match mkRepo with
  | Except.error e => Except.error e
  | Except.ok ops => registerTemplatesE ops templates s

/-- Records passed to `createTemplate` (in order) in an event trace. -/
def createCalls (evs : List StoreEvent) : List NewEmailTemplate :=
  evs.filterMap fun e =>
    match e with
    | StoreEvent.createCall t => some t
    | _ => none

/-- Tag sets queried via `findMany` (in order) in an event trace. -/
def findCalls (evs : List StoreEvent) : List (List String) :=
  evs.filterMap fun e =>
    match e with
    | StoreEvent.findManyCall tags => some tags
    | _ => none

/-- A store state for the reference store: the list of persisted records. -/
abbrev TemplateStore := List NewEmailTemplate

/-- Whether the store holds a record whose tag set equals `tags`. -/
def hasTags (s : TemplateStore) (tags : List String) : Bool :=
  s.any fun t => t.tags == tags

/-- Modelled from the spec: the `EmailTemplateRepository` collaborator is
not part of the analysed sources; per the persistence contract,
`findMany(filter: {tags}, {pagination: {limit, offset}})` returns the
sequence of stored records whose tags match the queried tag set (with
the pagination window applied), and `createTemplate(record)` appends
the record to the store and returns it.  Neither call throws. -/
def listStore : StoreOps TemplateStore Unit :=
  { findMany := fun tags limit offset s =>
      Except.ok (((s.filter fun t => t.tags == tags).drop offset).take limit)
    createTemplate := fun t s => Except.ok (t, s ++ [t]) }

/- ===================== Registrar: step lemmas ===================== -/

/-- When the existence query returns a non-empty page, the step skips:
store unchanged, only the query call in the trace. -/
theorem tryRegister_present {σ ε : Type} (ops : StoreOps σ ε)
    (d : TemplateDefinition) (s : σ) (l : List NewEmailTemplate)
    (hfind : ops.findMany d.metadata.tags 1 0 s = Except.ok l)
    (hne : 0 < l.length) :
    tryRegister ops d s = (s, [StoreEvent.findManyCall d.metadata.tags]) := by
  unfold tryRegister registerOneBody
  rw [hfind]
  simp [hne]

/-- When the existence query throws, the step is caught: store unchanged,
only the query call in the trace. -/
theorem tryRegister_error {σ ε : Type} (ops : StoreOps σ ε)
    (d : TemplateDefinition) (s : σ) (e : ε)
    (hfind : ops.findMany d.metadata.tags 1 0 s = Except.error e) :
    tryRegister ops d s = (s, [StoreEvent.findManyCall d.metadata.tags]) := by
  unfold tryRegister registerOneBody
  rw [hfind]

/-- When the existence query returns an empty page, the step attempts the
insert: the trace holds the query call then the insert call, whether or
not the insert throws. -/
theorem tryRegister_absent_events {σ ε : Type} (ops : StoreOps σ ε)
    (d : TemplateDefinition) (s : σ)
    (hfind : ops.findMany d.metadata.tags 1 0 s = Except.ok []) :
    (tryRegister ops d s).2 = [StoreEvent.findManyCall d.metadata.tags,
                              StoreEvent.createCall (mkNewTemplate d)] := by
  unfold tryRegister registerOneBody
  rw [hfind]
  simp only [List.length_nil, gt_iff_lt, Nat.lt_irrefl, if_false]
  cases hc : ops.createTemplate (mkNewTemplate d) s with
  | error e => simp
  | ok r => simp

/-- Every step's trace is the query call possibly followed by the insert
call for the constructed record. -/
theorem tryRegister_events {σ ε : Type} (ops : StoreOps σ ε)
    (d : TemplateDefinition) (s : σ) :
    (tryRegister ops d s).2 = [StoreEvent.findManyCall d.metadata.tags] ∨
    (tryRegister ops d s).2 = [StoreEvent.findManyCall d.metadata.tags,
                               StoreEvent.createCall (mkNewTemplate d)] := by
  unfold tryRegister registerOneBody
  cases hfm : ops.findMany d.metadata.tags 1 0 s with
  | error e => simp
  | ok existing =>
    by_cases h : existing.length > 0
    · simp [h]
    · cases hc : ops.createTemplate (mkNewTemplate d) s with
      | error e => simp [h]
      | ok r => simp [h]

theorem createCalls_nil : createCalls [] = [] := rfl

theorem createCalls_append (a b : List StoreEvent) :
    createCalls (a ++ b) = createCalls a ++ createCalls b :=
  List.filterMap_append a b _

theorem findCalls_append (a b : List StoreEvent) :
    findCalls (a ++ b) = findCalls a ++ findCalls b :=
  List.filterMap_append a b _

/-- A single step records exactly one existence query, for the
definition's tag set. -/
theorem findCalls_tryRegister {σ ε : Type} (ops : StoreOps σ ε)
    (d : TemplateDefinition) (s : σ) :
    findCalls (tryRegister ops d s).2 = [d.metadata.tags] := by
  rcases tryRegister_events ops d s with h | h <;> rw [h] <;> rfl

/-- A single step inserts nothing or exactly the constructed record. -/
theorem createCalls_tryRegister {σ ε : Type} (ops : StoreOps σ ε)
    (d : TemplateDefinition) (s : σ) :
    createCalls (tryRegister ops d s).2 = [] ∨
    createCalls (tryRegister ops d s).2 = [mkNewTemplate d] := by
  rcases tryRegister_events ops d s with h | h <;> rw [h]
  · exact Or.inl rfl
  · exact Or.inr rfl

/-- When the page is empty the step's insert call carries exactly the
constructed record. -/
theorem createCalls_tryRegister_absent {σ ε : Type} (ops : StoreOps σ ε)
    (d : TemplateDefinition) (s : σ)
    (hfind : ops.findMany d.metadata.tags 1 0 s = Except.ok []) :
    createCalls (tryRegister ops d s).2 = [mkNewTemplate d] := by
  rw [tryRegister_absent_events ops d s hfind]
  rfl

theorem registerTemplates_nil {σ ε : Type} (ops : StoreOps σ ε) (s : σ) :
    registerTemplates ops [] s = (s, []) := rfl

theorem registerTemplates_cons {σ ε : Type} (ops : StoreOps σ ε)
    (d : TemplateDefinition) (rest : List TemplateDefinition) (s : σ) :
    registerTemplates ops (d :: rest) s =
      ((registerTemplates ops rest (tryRegister ops d s).1).1,
       (tryRegister ops d s).2 ++
         (registerTemplates ops rest (tryRegister ops d s).1).2) := rfl

/-- The full run records one existence query per definition, in order. -/
theorem findCalls_registerTemplates {σ ε : Type} (ops : StoreOps σ ε)
    (ts : List TemplateDefinition) (s : σ) :
    findCalls (registerTemplates ops ts s).2 =
      ts.map fun d => d.metadata.tags := by
  induction ts generalizing s with
  | nil => rfl
  | cons d rest ih =>
    rw [registerTemplates_cons, findCalls_append, findCalls_tryRegister, ih]
    rfl

/-- The caught loop body equals the total step function: errors never
propagate out of an iteration. -/
theorem registerTemplatesE_eq {σ ε : Type} (ops : StoreOps σ ε)
    (ts : List TemplateDefinition) (s : σ) :
    registerTemplatesE ops ts s = Except.ok (registerTemplates ops ts s) := by
  induction ts generalizing s with
  | nil => rfl
  | cons d rest ih =>
    cases hb : registerOneBody ops d s with
    | ok r =>
      obtain ⟨s2, evs⟩ := r
      simp [registerTemplates_cons, registerTemplatesE, tryRegister, hb, ih]
    | error e =>
      obtain ⟨e1, evs⟩ := e
      simp [registerTemplates_cons, registerTemplatesE, tryRegister, hb, ih]

/- ===================== Concrete inputs for evaluation ===================== -/

/-- A concrete template definition, shaped like the loader's
email-verification entry. -/
def sampleDef : TemplateDefinition :=
  { metadata :=
      { name := "Email Verification"
        description := "Email verification template for new user registration"
        subject := "Verify your email address"
        tags := ["auth:email-verify"]
        «variables» := [{ id := "name", type := "string",
                          label := "Recipient Name", required := true }] }
    content := { html := "<p>verify</p>", text := some "verify" } }

/-- A second definition with the same tag set as `sampleDef` but different
content. -/
def sampleDef2 : TemplateDefinition :=
  { metadata :=
      { name := "Email Verification v2"
        description := "A rewritten email verification template"
        subject := "Please verify your email"
        tags := ["auth:email-verify"]
        «variables» := [{ id := "name", type := "string",
                          label := "Recipient Name", required := true }] }
    content := { html := "<p>verify again</p>", text := none } }

/- ===================== Claims C2, C3, C4, C9, C10 ===================== -/

/-- C2: for a template definition whose tag set matches at least one
existing stored record (`findMany` with that tag set returns a non-empty
result), the registrar does not call `createTemplate` for that
definition — its step records no insert call and leaves the store as it
was. -/
theorem registrar_skips_existing {σ ε : Type} (ops : StoreOps σ ε)
    (d : TemplateDefinition) (s : σ) (l : List NewEmailTemplate)
    (hfind : ops.findMany d.metadata.tags 1 0 s = Except.ok l)
    (hne : 0 < l.length) :
    createCalls (tryRegister ops d s).2 = [] ∧
    tryRegister ops d s = (s, [StoreEvent.findManyCall d.metadata.tags]) := by
  have h := tryRegister_present ops d s l hfind hne
  exact ⟨by rw [h]; rfl, h⟩

/-- Witness for C2: with the reference store holding the record built
from `sampleDef`, the registrar's step on `sampleDef` performs no
insert. -/
theorem registrar_skips_existing_witness :
    createCalls (tryRegister listStore sampleDef [mkNewTemplate sampleDef]).2 = [] ∧
    tryRegister listStore sampleDef [mkNewTemplate sampleDef] =
      ([mkNewTemplate sampleDef],
       [StoreEvent.findManyCall sampleDef.metadata.tags]) :=
  registrar_skips_existing listStore sampleDef [mkNewTemplate sampleDef]
    [mkNewTemplate sampleDef] rfl (by decide)

/-- C3: for a template definition whose tag set matches no existing
stored record (`findMany` returns an empty result), the registrar calls
`createTemplate` exactly once for that definition, with a record whose
subject, HTML/text body, tags and variables equal those of the input
definition's metadata and content. -/
theorem registrar_inserts_missing {σ ε : Type} (ops : StoreOps σ ε)
    (d : TemplateDefinition) (s : σ)
    (hfind : ops.findMany d.metadata.tags 1 0 s = Except.ok []) :
    createCalls (tryRegister ops d s).2 = [mkNewTemplate d] ∧
    (mkNewTemplate d).subject = d.metadata.subject ∧
    (mkNewTemplate d).bodyHtml = d.content.html ∧
    (mkNewTemplate d).bodyText = d.content.text ∧
    (mkNewTemplate d).tags = d.metadata.tags ∧
    (mkNewTemplate d).«variables» = d.metadata.«variables» :=
  ⟨createCalls_tryRegister_absent ops d s hfind, rfl, rfl, rfl, rfl, rfl⟩

/-- Witness for C3: on the empty store, the registrar's step on
`sampleDef` inserts exactly the record built from it. -/
theorem registrar_inserts_missing_witness :
    createCalls (tryRegister listStore sampleDef ([] : TemplateStore)).2 =
      [mkNewTemplate sampleDef] ∧
    (mkNewTemplate sampleDef).subject = sampleDef.metadata.subject ∧
    (mkNewTemplate sampleDef).bodyHtml = sampleDef.content.html ∧
    (mkNewTemplate sampleDef).bodyText = sampleDef.content.text ∧
    (mkNewTemplate sampleDef).tags = sampleDef.metadata.tags ∧
    (mkNewTemplate sampleDef).«variables» = sampleDef.metadata.«variables» :=
  registrar_inserts_missing listStore sampleDef ([] : TemplateStore) rfl

/-- C4: whatever the store does — including `findMany` or
`createTemplate` throwing for any definition in the batch — the
registrar still processes every definition: the run's trace holds one
existence query per definition, in order, and any definition whose
query reports absence gets its insert attempted. -/
theorem registrar_processes_all {σ ε : Type} (ops : StoreOps σ ε)
    (ts : List TemplateDefinition) (s : σ) :
    findCalls (registerTemplates ops ts s).2 =
      (ts.map fun d => d.metadata.tags) ∧
    ∀ (d : TemplateDefinition) (s2 : σ),
      ops.findMany d.metadata.tags 1 0 s2 = Except.ok [] →
      createCalls (tryRegister ops d s2).2 = [mkNewTemplate d] :=
  ⟨findCalls_registerTemplates ops ts s,
   fun d s2 h => createCalls_tryRegister_absent ops d s2 h⟩

/-- A store whose operations always throw. -/
def failingStore : StoreOps TemplateStore Unit :=
  { findMany := fun _ _ _ _ => Except.error ()
    createTemplate := fun _ _ => Except.error () }

/-- Witness for C4: even over the always-throwing store, a two-element
batch gets both existence checks attempted, and on the reference store
an absent definition's insert is attempted. -/
theorem registrar_processes_all_witness :
    (findCalls (registerTemplates failingStore [sampleDef, sampleDef2]
        ([] : TemplateStore)).2 =
      ([sampleDef, sampleDef2].map fun d => d.metadata.tags)) ∧
    createCalls (tryRegister listStore sampleDef ([] : TemplateStore)).2 =
      [mkNewTemplate sampleDef] :=
  ⟨(registrar_processes_all failingStore [sampleDef, sampleDef2] []).1,
   (registrar_processes_all listStore [] []).2 sampleDef [] rfl⟩

/-- C9: for every behaviour of the store's operations, including both
calls throwing arbitrarily, `registerTemplates` itself never throws,
provided constructing the template repository succeeded. -/
theorem registrar_never_throws {σ ε : Type}
    (mkRepo : Except ε (StoreOps σ ε)) (ts : List TemplateDefinition)
    (s : σ) (ops : StoreOps σ ε) (h : mkRepo = Except.ok ops) :
    ∃ out, registerTemplatesTop mkRepo ts s = Except.ok out := by
  subst h
  exact ⟨_, registerTemplatesE_eq ops ts s⟩

/-- Witness for C9: over the always-throwing store, a run on a
non-empty batch still resolves normally. -/
theorem registrar_never_throws_witness :
    ∃ out, registerTemplatesTop (Except.ok failingStore) [sampleDef]
      ([] : TemplateStore) = Except.ok out :=
  registrar_never_throws (Except.ok failingStore) [sampleDef] [] failingStore rfl

/-- Every record a step passes to `createTemplate` has status
`"active"`. -/
theorem createCalls_tryRegister_status {σ ε : Type} (ops : StoreOps σ ε)
    (d : TemplateDefinition) (s : σ) :
    ((createCalls (tryRegister ops d s).2).all fun t => t.status == "active") =
      true := by
  rcases createCalls_tryRegister ops d s with h | h <;> rw [h] <;> rfl

/-- Every record a run passes to `createTemplate` has status
`"active"`. -/
theorem createCalls_status_active {σ ε : Type} (ops : StoreOps σ ε)
    (ts : List TemplateDefinition) (s : σ) :
    ((createCalls (registerTemplates ops ts s).2).all
      fun t => t.status == "active") = true := by
  induction ts generalizing s with
  | nil => rfl
  | cons d rest ih =>
    rw [registerTemplates_cons, createCalls_append, List.all_append,
      createCalls_tryRegister_status, ih]
    rfl

/-- C10: every record the registrar inserts via `createTemplate` has its
status field set to `"active"`; no record in any other status is ever
inserted. -/
theorem registrar_inserts_only_active {σ ε : Type} (ops : StoreOps σ ε)
    (ts : List TemplateDefinition) (s : σ) (t : NewEmailTemplate)
    (hmem : t ∈ createCalls (registerTemplates ops ts s).2) :
    t.status = "active" := by
  have h := createCalls_status_active ops ts s
  rw [List.all_eq_true] at h
  exact eq_of_beq (h t hmem)

/-- Witness for C10: the record inserted by a run on the empty reference
store has status `"active"`. -/
theorem registrar_inserts_only_active_witness :
    (mkNewTemplate sampleDef).status = "active" :=
  registrar_inserts_only_active listStore [sampleDef] ([] : TemplateStore)
    (mkNewTemplate sampleDef) (by decide)

/- ===================== Reference-store run lemmas ===================== -/

/-- The reference store's existence query returns the first stored record
matching the tag set, when there is one. -/
theorem listStore_findMany (tags : List String) (s : TemplateStore) :
    listStore.findMany tags 1 0 s =
      Except.ok ((s.filter fun t => t.tags == tags).take 1) := by
  simp [listStore]

/-- Over the reference store, a step on a present tag set skips. -/
theorem tryRegister_listStore_present (d : TemplateDefinition)
    (s : TemplateStore) (h : hasTags s d.metadata.tags = true) :
    tryRegister listStore d s =
      (s, [StoreEvent.findManyCall d.metadata.tags]) := by
  apply tryRegister_present listStore d s
    ((s.filter fun t => t.tags == d.metadata.tags).take 1)
    (listStore_findMany d.metadata.tags s)
  have hne : (s.filter fun t => t.tags == d.metadata.tags) ≠ [] := by
    simp only [hasTags, List.any_eq_true] at h
    obtain ⟨x, hx, hpx⟩ := h
    intro hnil
    have hmem : x ∈ s.filter fun t => t.tags == d.metadata.tags :=
      List.mem_filter.mpr ⟨hx, hpx⟩
    rw [hnil] at hmem
    exact List.not_mem_nil x hmem
  cases hfil : s.filter fun t => t.tags == d.metadata.tags with
  | nil => exact absurd hfil hne
  | cons a l => simp

/-- Over the reference store, a step on an absent tag set appends the
constructed record and records the insert. -/
theorem tryRegister_listStore_absent (d : TemplateDefinition)
    (s : TemplateStore) (h : hasTags s d.metadata.tags = false) :
    tryRegister listStore d s =
      (s ++ [mkNewTemplate d],
       [StoreEvent.findManyCall d.metadata.tags,
        StoreEvent.createCall (mkNewTemplate d)]) := by
  have hfil : (s.filter fun t => t.tags == d.metadata.tags) = [] := by
    rw [List.filter_eq_nil_iff]
    intro a ha hpa
    have : hasTags s d.metadata.tags = true := by
      simp only [hasTags, List.any_eq_true]
      exact ⟨a, ha, hpa⟩
    rw [h] at this
    exact Bool.false_ne_true this
  unfold tryRegister registerOneBody
  rw [listStore_findMany, hfil]
  simp [listStore]

/-- Appending records preserves tag-set presence. -/
theorem hasTags_append_left (s s2 : TemplateStore) (T : List String)
    (h : hasTags s T = true) : hasTags (s ++ s2) T = true := by
  simp only [hasTags, List.any_append, Bool.or_eq_true]
  exact Or.inl h

/-- The record appended for `d` makes `d`'s tag set present. -/
theorem hasTags_append_mk (s : TemplateStore) (d : TemplateDefinition) :
    hasTags (s ++ [mkNewTemplate d]) d.metadata.tags = true := by
  simp only [hasTags, List.any_append, Bool.or_eq_true]
  refine Or.inr ?_
  simp [mkNewTemplate]

/-- Over the reference store, a run never removes a tag set. -/
theorem registerTemplates_listStore_mono (ts : List TemplateDefinition)
    (s : TemplateStore) (T : List String) (h : hasTags s T = true) :
    hasTags (registerTemplates listStore ts s).1 T = true := by
  induction ts generalizing s with
  | nil => exact h
  | cons d rest ih =>
    rw [registerTemplates_cons]
    by_cases hd : hasTags s d.metadata.tags = true
    · rw [tryRegister_listStore_present d s hd]
      exact ih s h
    · rw [tryRegister_listStore_absent d s (Bool.not_eq_true _ ▸ hd)]
      exact ih _ (hasTags_append_left s _ T h)

/-- Over the reference store, no record with an already-present tag set
is ever inserted during a run. -/
theorem createCalls_filter_nil_of_hasTags (ts : List TemplateDefinition)
    (s : TemplateStore) (T : List String) (h : hasTags s T = true) :
    ((createCalls (registerTemplates listStore ts s).2).filter
      fun t => t.tags == T) = [] := by
  induction ts generalizing s with
  | nil => rfl
  | cons d rest ih =>
    rw [registerTemplates_cons, createCalls_append, List.filter_append]
    by_cases hd : hasTags s d.metadata.tags = true
    · rw [tryRegister_listStore_present d s hd]
      rw [ih s h]
      rfl
    · have hd2 : hasTags s d.metadata.tags = false := Bool.not_eq_true _ ▸ hd
      rw [tryRegister_listStore_absent d s hd2]
      have hne : d.metadata.tags ≠ T := by
        intro he
        rw [he, h] at hd2
        exact Bool.noConfusion hd2
      have hfil : (createCalls
          [StoreEvent.findManyCall d.metadata.tags,
           StoreEvent.createCall (mkNewTemplate d)]).filter
            (fun t => t.tags == T) = [] := by
        simp [createCalls, mkNewTemplate, hne]
      rw [hfil, ih _ (hasTags_append_left s _ T h)]
      rfl

/-- Over the reference store, a run inserts at most one record per tag
set. -/
theorem createCalls_filter_length_le (ts : List TemplateDefinition)
    (s : TemplateStore) (T : List String) :
    ((createCalls (registerTemplates listStore ts s).2).filter
      fun t => t.tags == T).length ≤ 1 := by
  induction ts generalizing s with
  | nil => exact Nat.zero_le 1
  | cons d rest ih =>
    rw [registerTemplates_cons, createCalls_append, List.filter_append,
      List.length_append]
    by_cases hd : hasTags s d.metadata.tags = true
    · rw [tryRegister_listStore_present d s hd]
      have h0 : ((createCalls [StoreEvent.findManyCall d.metadata.tags]).filter
          fun t => t.tags == T).length = 0 := rfl
      rw [h0]
      exact Nat.zero_add _ ▸ ih s
    · have hd2 : hasTags s d.metadata.tags = false := Bool.not_eq_true _ ▸ hd
      rw [tryRegister_listStore_absent d s hd2]
      by_cases hT : d.metadata.tags = T
      · have h1 : ((createCalls
            [StoreEvent.findManyCall d.metadata.tags,
             StoreEvent.createCall (mkNewTemplate d)]).filter
              fun t => t.tags == T).length = 1 := by
          simp [createCalls, mkNewTemplate, hT]
        rw [h1]
        have hrest : ((createCalls
            (registerTemplates listStore rest (s ++ [mkNewTemplate d])).2).filter
              fun t => t.tags == T) = [] := by
          apply createCalls_filter_nil_of_hasTags
          rw [← hT]
          exact hasTags_append_mk s d
        rw [hrest]
        exact Nat.le_refl 1
      · have h0 : ((createCalls
            [StoreEvent.findManyCall d.metadata.tags,
             StoreEvent.createCall (mkNewTemplate d)]).filter
              fun t => t.tags == T).length = 0 := by
          simp [createCalls, mkNewTemplate, hT]
        rw [h0]
        exact Nat.zero_add _ ▸ ih _

/-- After a run over the reference store, every processed definition's
tag set is present in the resulting store. -/
theorem hasTags_after_run (ts : List TemplateDefinition) (s : TemplateStore)
    (d : TemplateDefinition) (hmem : d ∈ ts) :
    hasTags (registerTemplates listStore ts s).1 d.metadata.tags = true := by
  induction ts generalizing s with
  | nil => exact absurd hmem (List.not_mem_nil d)
  | cons d0 rest ih =>
    rw [registerTemplates_cons]
    rcases List.mem_cons.mp hmem with he | htl
    · subst he
      by_cases hd : hasTags s d.metadata.tags = true
      · rw [tryRegister_listStore_present d s hd]
        exact registerTemplates_listStore_mono rest s _ hd
      · rw [tryRegister_listStore_absent d s (Bool.not_eq_true _ ▸ hd)]
        exact registerTemplates_listStore_mono rest _ _ (hasTags_append_mk s d)
    · by_cases hd : hasTags s d0.metadata.tags = true
      · rw [tryRegister_listStore_present d0 s hd]
        exact ih s htl
      · rw [tryRegister_listStore_absent d0 s (Bool.not_eq_true _ ▸ hd)]
        exact ih _ htl

/-- Over the reference store, a run on a batch whose tag sets are all
already present inserts nothing. -/
theorem createCalls_nil_of_all_present (ts : List TemplateDefinition)
    (s : TemplateStore)
    (h : ∀ d ∈ ts, hasTags s d.metadata.tags = true) :
    createCalls (registerTemplates listStore ts s).2 = [] := by
  induction ts generalizing s with
  | nil => rfl
  | cons d rest ih =>
    rw [registerTemplates_cons, createCalls_append]
    rw [tryRegister_listStore_present d s (h d (List.mem_cons_self d rest))]
    have hr := ih s fun d2 hd2 => h d2 (List.mem_cons_of_mem d hd2)
    rw [hr]
    rfl

/- ===================== Claims C1 and C8 ===================== -/

/-- C1: over the reference store — whose `findMany` returns records whose
tags match the queried tag set — a run of the registrar inserts at most
one (active) template per tag set, from any initial store, and a second
run with the same definitions over the resulting store performs no
further inserts. -/
theorem registrar_unique_and_idempotent (ts : List TemplateDefinition)
    (s : TemplateStore) :
    (∀ T : List String,
      ((createCalls (registerTemplates listStore ts s).2).filter
        fun t => t.tags == T).length ≤ 1) ∧
    ((createCalls (registerTemplates listStore ts s).2).all
      fun t => t.status == "active") = true ∧
    createCalls
      (registerTemplates listStore ts
        (registerTemplates listStore ts s).1).2 = [] :=
  ⟨fun T => createCalls_filter_length_le ts s T,
   createCalls_status_active listStore ts s,
   createCalls_nil_of_all_present ts _
     fun d hd => hasTags_after_run ts s d hd⟩

/-- C8: two definitions sharing a tag set that is initially absent, but
with different content: the run inserts the first definition's record
and silently drops the second — the second definition's content is
never inserted. -/
theorem registrar_drops_second_same_tags (d1 d2 : TemplateDefinition)
    (s : TemplateStore)
    (htags : d1.metadata.tags = d2.metadata.tags)
    (hcontent : d1.content ≠ d2.content)
    (habsent : hasTags s d1.metadata.tags = false) :
    createCalls (registerTemplates listStore [d1, d2] s).2 =
      [mkNewTemplate d1] ∧
    mkNewTemplate d2 ∉
      createCalls (registerTemplates listStore [d1, d2] s).2 := by
  have hrun : createCalls (registerTemplates listStore [d1, d2] s).2 =
      [mkNewTemplate d1] := by
    rw [registerTemplates_cons, createCalls_append,
      tryRegister_listStore_absent d1 s habsent]
    have hstep2 : hasTags (s ++ [mkNewTemplate d1]) d2.metadata.tags = true := by
      rw [← htags]
      exact hasTags_append_mk s d1
    rw [registerTemplates_cons, createCalls_append,
      tryRegister_listStore_present d2 _ hstep2]
    rfl
  refine ⟨hrun, ?_⟩
  rw [hrun]
  intro hmem
  have heq : mkNewTemplate d2 = mkNewTemplate d1 := List.mem_singleton.mp hmem
  apply hcontent
  have hh : d1.content.html = d2.content.html :=
    (congrArg NewEmailTemplate.bodyHtml heq).symm
  have ht : d1.content.text = d2.content.text :=
    (congrArg NewEmailTemplate.bodyText heq).symm
  calc d1.content = { html := d1.content.html, text := d1.content.text } := rfl
    _ = { html := d2.content.html, text := d2.content.text } := by rw [hh, ht]
    _ = d2.content := rfl

/-- Witness for C8: on the empty store, the batch of the two concrete
same-tag definitions inserts only the first one's record. -/
theorem registrar_drops_second_same_tags_witness :
    createCalls (registerTemplates listStore [sampleDef, sampleDef2]
        ([] : TemplateStore)).2 = [mkNewTemplate sampleDef] ∧
    mkNewTemplate sampleDef2 ∉
      createCalls (registerTemplates listStore [sampleDef, sampleDef2]
        ([] : TemplateStore)).2 :=
  registrar_drops_second_same_tags sampleDef sampleDef2 ([] : TemplateStore)
    rfl (by decide) rfl

/- ===================== Build-constants generator ===================== -/

/-- `BuildConstants` from the build script: the six scalar metadata
fields, in declaration (and `Object.entries`) order. -/
structure BuildConstants where
  BUILD_VERSION : String
  BUILD_TIME : String
  BUILD_TIMESTAMP : String
  GIT_COMMIT : String
  GIT_BRANCH : String
  COMPILER_VERSION : String
deriving DecidableEq, Repr

/-- The parsed package manifest, as `getPackageVersion` consumes it: only
the `version` key matters; `none` models an absent key (JavaScript
`undefined`). -/
structure PackageManifest where
  version : Option String
deriving DecidableEq, Repr

/-- The environment the build script reads.  Fallible external calls are
`Except` results: `readManifest` is the combined outcome of reading and
JSON-parsing `package.json` (an unreadable file or unparseable JSON is
an error), and `revParseHead` / `revParseBranch` are the outcomes of
the two git subprocess calls. -/
structure BuildEnv where
  gitDirExists : Bool
  revParseHead : Except Unit String
  revParseBranch : Except Unit String
  readManifest : Except Unit PackageManifest
  buildTime : String
  isoTimestamp : String
  compilerVersion : String

/-- `getPackageVersion`: the version from `package.json`, defaulting to
`"0.0.0"` when the read or parse throws (the `catch`), when the key is
absent, or when the value is the empty string (both falsy under the
source's `packageJson.version || '0.0.0'`). -/
def getPackageVersion (env : BuildEnv) : String :=
  match env.readManifest with
  | Except.error _ => "0.0.0"
  | Except.ok pkg =>
    match pkg.version with
    | none => "0.0.0"
    | some v => if v = "" then "0.0.0" else v

/-- Body of `getGitCommit` without its `catch`: `"unknown"` when no
`.git` directory exists, otherwise the trimmed output of
`git rev-parse HEAD` — which may throw. -/
def gitCommitBody (env : BuildEnv) : Except Unit String :=
  if env.gitDirExists = false then Except.ok "unknown"
  else env.revParseHead.map String.trim

/-- Body of `getGitBranch` without its `catch`: `"unknown"` when no
`.git` directory exists, otherwise the trimmed output of
`git rev-parse --abbrev-ref HEAD` — which may throw. -/
def gitBranchBody (env : BuildEnv) : Except Unit String :=
  if env.gitDirExists = false then Except.ok "unknown"
  else env.revParseBranch.map String.trim

/-- `getGitCommit` with its `catch`: a thrown git query is caught and
replaced by `"unknown"`, so the promise always resolves. -/
def tryGitCommit (env : BuildEnv) : Except Unit String :=
  match gitCommitBody env with
  | Except.ok s => Except.ok s
  | Except.error _ => Except.ok "unknown"

/-- `getGitBranch` with its `catch`. -/
def tryGitBranch (env : BuildEnv) : Except Unit String :=
  match gitBranchBody env with
  | Except.ok s => Except.ok s
  | Except.error _ => Except.ok "unknown"

/-- The value `getGitCommit` resolves to. -/
def getGitCommit (env : BuildEnv) : String :=
  match tryGitCommit env with
  | Except.ok s => s
  | Except.error _ => "unknown"

/-- The value `getGitBranch` resolves to. -/
def getGitBranch (env : BuildEnv) : String :=
  match tryGitBranch env with
  | Except.ok s => s
  | Except.error _ => "unknown"

/-- `generateBuildConstants`: assemble the six fields; the two git
lookups are awaited jointly (`Promise.all`) and contribute their
resolved values. -/
def generateBuildConstants (env : BuildEnv) : BuildConstants :=
  { BUILD_VERSION := getPackageVersion env
    BUILD_TIME := env.buildTime
    BUILD_TIMESTAMP := env.isoTimestamp
    GIT_COMMIT := getGitCommit env
    GIT_BRANCH := getGitBranch env
    COMPILER_VERSION := env.compilerVersion }

/- ===================== Claims C6 and C7 ===================== -/

/-- C6: whenever the manifest is unreadable or unparseable (the read
throws) or its version key is absent, the generator yields version
exactly `"0.0.0"`. -/
theorem version_defaults (env : BuildEnv)
    (h : env.readManifest = Except.error () ∨
         env.readManifest = Except.ok { version := none }) :
    (generateBuildConstants env).BUILD_VERSION = "0.0.0" := by
  rcases h with h | h <;>
    simp [generateBuildConstants, getPackageVersion, h]

/-- A concrete build environment with no `.git` directory, failing git
queries and an unreadable manifest. -/
def bareEnv : BuildEnv :=
  { gitDirExists := false
    revParseHead := Except.error ()
    revParseBranch := Except.error ()
    readManifest := Except.error ()
    buildTime := "January 1, 2026 at 00:00:00 AM UTC"
    isoTimestamp := "2026-01-01T00:00:00.000Z"
    compilerVersion := "1.1.0" }

/-- Witness for C6: the bare environment yields version `"0.0.0"`. -/
theorem version_defaults_witness :
    (generateBuildConstants bareEnv).BUILD_VERSION = "0.0.0" :=
  version_defaults bareEnv (Or.inl rfl)

/-- C7: without a `.git` directory both git fields resolve to
`"unknown"`; each query's failure independently forces its own field to
`"unknown"`; each field depends only on its own query (and the
directory check), so one failure cannot affect the other field; and
neither lookup's promise ever rejects, so no exception escapes
`generateBuildConstants` from the git lookups. -/
theorem git_fields_default (env : BuildEnv) :
    (env.gitDirExists = false →
      (generateBuildConstants env).GIT_COMMIT = "unknown" ∧
      (generateBuildConstants env).GIT_BRANCH = "unknown") ∧
    (env.revParseHead = Except.error () →
      (generateBuildConstants env).GIT_COMMIT = "unknown") ∧
    (env.revParseBranch = Except.error () →
      (generateBuildConstants env).GIT_BRANCH = "unknown") ∧
    (∀ env2 : BuildEnv, env.gitDirExists = env2.gitDirExists →
      env.revParseHead = env2.revParseHead →
      (generateBuildConstants env).GIT_COMMIT =
        (generateBuildConstants env2).GIT_COMMIT) ∧
    (∀ env2 : BuildEnv, env.gitDirExists = env2.gitDirExists →
      env.revParseBranch = env2.revParseBranch →
      (generateBuildConstants env).GIT_BRANCH =
        (generateBuildConstants env2).GIT_BRANCH) ∧
    tryGitCommit env = Except.ok (generateBuildConstants env).GIT_COMMIT ∧
    tryGitBranch env = Except.ok (generateBuildConstants env).GIT_BRANCH := by
  refine ⟨?_, ?_, ?_, ?_, ?_, ?_, ?_⟩
  · intro h
    constructor <;>
      simp [generateBuildConstants, getGitCommit, getGitBranch,
        tryGitCommit, tryGitBranch, gitCommitBody, gitBranchBody, h]
  · intro h
    cases hg : env.gitDirExists <;>
      simp [generateBuildConstants, getGitCommit, tryGitCommit,
        gitCommitBody, Except.map, h, hg]
  · intro h
    cases hg : env.gitDirExists <;>
      simp [generateBuildConstants, getGitBranch, tryGitBranch,
        gitBranchBody, Except.map, h, hg]
  · intro env2 h1 h2
    simp [generateBuildConstants, getGitCommit, tryGitCommit,
      gitCommitBody, h1, h2]
  · intro env2 h1 h2
    simp [generateBuildConstants, getGitBranch, tryGitBranch,
      gitBranchBody, h1, h2]
  · cases hb : gitCommitBody env <;>
      simp [generateBuildConstants, getGitCommit, tryGitCommit, hb]
  · cases hb : gitBranchBody env <;>
      simp [generateBuildConstants, getGitBranch, tryGitBranch, hb]

/-- Witness for C7: on the bare environment both fields are
`"unknown"`, they coincide with an environment differing only in the
manifest, and both lookups resolve. -/
theorem git_fields_default_witness :
    ((generateBuildConstants bareEnv).GIT_COMMIT = "unknown" ∧
     (generateBuildConstants bareEnv).GIT_BRANCH = "unknown") ∧
    (generateBuildConstants bareEnv).GIT_COMMIT = "unknown" ∧
    tryGitCommit bareEnv =
      Except.ok (generateBuildConstants bareEnv).GIT_COMMIT :=
  ⟨(git_fields_default bareEnv).1 rfl,
   (git_fields_default bareEnv).2.1 rfl,
   (git_fields_default bareEnv).2.2.2.2.2.1⟩

/- ===================== JSON string encoding (C5) ===================== -/

/-- Lowercase hexadecimal digit, as produced by the JavaScript unicode
escape. -/
def hexChar (n : Nat) : Char :=
  if n < 10 then Char.ofNat (48 + n) else Char.ofNat (87 + n)

/-- Value of a hexadecimal digit character (digits and lowercase
letters). -/
def hexVal (c : Char) : Option Nat :=
  if 48 ≤ c.toNat ∧ c.toNat ≤ 57 then some (c.toNat - 48)
  else if 97 ≤ c.toNat ∧ c.toNat ≤ 102 then some (c.toNat - 87)
  else none

/-- `JSON.stringify`'s escaping of one character of a string value:
quote and backslash get a backslash escape, the named control
characters get their two-character escapes, every other control
character below U+0020 gets a `\x5cu00xx` escape, and all other
characters stand for themselves. -/
def escapeChar (c : Char) : List Char :=
  if c = '"' then ['\\', '"']
  else if c = '\\' then ['\\', '\\']
  else if c = Char.ofNat 8 then ['\\', 'b']
  else if c = Char.ofNat 9 then ['\\', 't']
  else if c = Char.ofNat 10 then ['\\', 'n']
  else if c = Char.ofNat 12 then ['\\', 'f']
  else if c = Char.ofNat 13 then ['\\', 'r']
  else if c.toNat < 32 then
    ['\\', 'u', '0', '0', hexChar (c.toNat / 16), hexChar (c.toNat % 16)]
  else [c]

/-- The characters of the JSON encoding of a string value after the
opening quote: each character escaped, then the closing quote. -/
def encodeChars : List Char → List Char
  | [] => ['"']
  | c :: rest => escapeChar c ++ encodeChars rest

/-- `JSON.stringify` of a string value. -/
def jsonEncodeString (s : String) : String :=
  String.mk ('"' :: encodeChars s.data)

/-- Inverse of a two-character escape. -/
def unescapeChar (c : Char) : Option Char :=
  if c = '"' then some '"'
  else if c = '\\' then some '\\'
  else if c = '/' then some '/'
  else if c = 'b' then some (Char.ofNat 8)
  else if c = 'f' then some (Char.ofNat 12)
  else if c = 'n' then some (Char.ofNat 10)
  else if c = 'r' then some (Char.ofNat 13)
  else if c = 't' then some (Char.ofNat 9)
  else none

/-- JSON string-body parser: consumes escaped characters up to a closing
quote that must end the input. -/
def decodeChars : List Char → Option (List Char)
  | [] => none
  | c :: rest =>
    if c = '"' then (if rest = [] then some [] else none)
    else if c = '\\' then
      match rest with
      | 'u' :: h1 :: h2 :: h3 :: h4 :: rest2 =>
        (hexVal h1).bind fun a =>
        (hexVal h2).bind fun b =>
        (hexVal h3).bind fun x =>
        (hexVal h4).bind fun y =>
        (decodeChars rest2).map fun tl =>
          Char.ofNat (((a * 16 + b) * 16 + x) * 16 + y) :: tl
      | e :: rest2 =>
        (unescapeChar e).bind fun d =>
        (decodeChars rest2).map fun tl => d :: tl
      | [] => none
    else (decodeChars rest).map fun tl => c :: tl

/-- JSON decoding of a string value: an opening quote, then the body. -/
def jsonDecodeString (s : String) : Option String :=
  match s.data with
  | '"' :: rest => (decodeChars rest).map fun l => String.mk l
  | _ => none

theorem hexVal_hexChar (n : Nat) (h : n < 16) :
    hexVal (hexChar n) = some n := by
  interval_cases n <;> decide

/-- Decoding one escaped character prepends that character. -/
theorem decodeChars_escapeChar (c : Char) (r : List Char) :
    decodeChars (escapeChar c ++ r) = (decodeChars r).map fun tl => c :: tl := by
  unfold escapeChar
  by_cases h1 : c = '"'
  · subst h1; simp [decodeChars, unescapeChar]
  · rw [if_neg h1]
    by_cases h2 : c = '\\'
    · subst h2; simp [decodeChars, unescapeChar]
    · rw [if_neg h2]
      by_cases h3 : c = Char.ofNat 8
      · subst h3; simp [decodeChars, unescapeChar]
      · rw [if_neg h3]
        by_cases h4 : c = Char.ofNat 9
        · subst h4; simp [decodeChars, unescapeChar]
        · rw [if_neg h4]
          by_cases h5 : c = Char.ofNat 10
          · subst h5; simp [decodeChars, unescapeChar]
          · rw [if_neg h5]
            by_cases h6 : c = Char.ofNat 12
            · subst h6; simp [decodeChars, unescapeChar]
            · rw [if_neg h6]
              by_cases h7 : c = Char.ofNat 13
              · subst h7; simp [decodeChars, unescapeChar]
              · rw [if_neg h7]
                by_cases h8 : c.toNat < 32
                · rw [if_pos h8]
                  have hdiv : c.toNat / 16 < 16 := by omega
                  have hmod : c.toNat % 16 < 16 := Nat.mod_lt _ (by omega)
                  have hstep : decodeChars ('\\' :: 'u' :: '0' :: '0' ::
                      hexChar (c.toNat / 16) :: hexChar (c.toNat % 16) :: r) =
                      (hexVal '0').bind fun a =>
                      (hexVal '0').bind fun b =>
                      (hexVal (hexChar (c.toNat / 16))).bind fun x =>
                      (hexVal (hexChar (c.toNat % 16))).bind fun y =>
                      (decodeChars r).map fun tl =>
                        Char.ofNat (((a * 16 + b) * 16 + x) * 16 + y) :: tl := rfl
                  have harith :
                      ((0 * 16 + 0) * 16 + c.toNat / 16) * 16 + c.toNat % 16 =
                        c.toNat := by omega
                  simp only [List.cons_append, List.nil_append, hstep,
                    hexVal_hexChar _ hdiv, hexVal_hexChar _ hmod,
                    show hexVal '0' = some 0 from rfl, Option.some_bind,
                    harith, Char.ofNat_toNat]
                · rw [if_neg h8]
                  simp only [List.cons_append, List.nil_append]
                  rw [decodeChars.eq_def]
                  simp only []
                  rw [if_neg h1, if_neg h2]

/-- Decoding the encoded body recovers the original character list. -/
theorem decodeChars_encodeChars (l : List Char) :
    decodeChars (encodeChars l) = some l := by
  induction l with
  | nil => rfl
  | cons c rest ih =>
    rw [encodeChars, decodeChars_escapeChar, ih]
    rfl

/-- JSON round-trip on string values: decoding the encoding gives back
the string. -/
theorem jsonDecode_jsonEncode (s : String) :
    jsonDecodeString (jsonEncodeString s) = some s := by
  show (decodeChars (encodeChars s.data)).map (fun l => String.mk l) = some s
  rw [decodeChars_encodeChars]
  rfl

/- ===================== Define-argument serialization (C5) ===================== -/

/-- Split a character list at the first `'='`. -/
def splitFirstEq : List Char → Option (List Char × List Char)
  | [] => none
  | c :: rest =>
    if c = '=' then some ([], rest)
    else (splitFirstEq rest).map fun p => (c :: p.1, p.2)

/-- One `KEY=JSON_VALUE` define argument. -/
def defineArg (key value : String) : String :=
  key ++ "=" ++ jsonEncodeString value

/-- `constantsToDefineArgs`: each constant contributes a `--define` flag
followed by its `KEY=JSON_VALUE` pair, in `Object.entries` (declaration)
order. -/
def constantsToDefineArgs (c : BuildConstants) : List String :=
  ["--define", defineArg "BUILD_VERSION" c.BUILD_VERSION,
   "--define", defineArg "BUILD_TIME" c.BUILD_TIME,
   "--define", defineArg "BUILD_TIMESTAMP" c.BUILD_TIMESTAMP,
   "--define", defineArg "GIT_COMMIT" c.GIT_COMMIT,
   "--define", defineArg "GIT_BRANCH" c.GIT_BRANCH,
   "--define", defineArg "COMPILER_VERSION" c.COMPILER_VERSION]

/-- Parse one `KEY=JSON_VALUE` pair: split on the first `'='` and
JSON-decode the value. -/
def parseDefine (s : String) : Option (String × String) :=
  match splitFirstEq s.data with
  | some (k, v) => (jsonDecodeString (String.mk v)).map fun w => (String.mk k, w)
  | none => none

/-- Parse a define-argument list back into key/value pairs. -/
def parseDefineArgs : List String → Option (List (String × String))
  | [] => some []
  | flag :: kv :: rest =>
    if flag = "--define" then
      (parseDefine kv).bind fun p =>
        (parseDefineArgs rest).map fun ps => p :: ps
    else none
  | _ => none

/-- Splitting after an equals-free prefix finds that first `'='`. -/
theorem splitFirstEq_append (k v : List Char) (hk : '=' ∉ k) :
    splitFirstEq (k ++ '=' :: v) = some (k, v) := by
  induction k with
  | nil => rfl
  | cons c rest ih =>
    have hc : ¬c = '=' := fun h => hk (h ▸ List.mem_cons_self c rest)
    have hrest : '=' ∉ rest := fun h => hk (List.mem_cons_of_mem c h)
    rw [List.cons_append, splitFirstEq, if_neg hc, ih hrest]
    rfl

/-- Parsing one serialized define pair recovers the key and value. -/
theorem parseDefine_defineArg (k v : String) (hk : '=' ∉ k.data) :
    parseDefine (defineArg k v) = some (k, v) := by
  have hdata : (defineArg k v).data = k.data ++ '=' :: (jsonEncodeString v).data := by
    show (k ++ "=" ++ jsonEncodeString v).data = _
    rw [String.data_append, String.data_append, List.append_assoc]
    rfl
  rw [parseDefine, hdata, splitFirstEq_append _ _ hk]
  show (jsonDecodeString (String.mk (jsonEncodeString v).data)).map
    (fun w => (String.mk k.data, w)) = some (k, v)
  rw [show String.mk (jsonEncodeString v).data = jsonEncodeString v from rfl,
    jsonDecode_jsonEncode]
  rfl

/-- C5: serializing a `BuildConstants` record with
`constantsToDefineArgs` and parsing each `--define KEY=JSON_VALUE` pair
back (splitting on the first `'='` and JSON-decoding the value)
recovers exactly the original six field names and string values. -/
theorem defineArgs_roundtrip (c : BuildConstants) :
    parseDefineArgs (constantsToDefineArgs c) =
      some [("BUILD_VERSION", c.BUILD_VERSION),
            ("BUILD_TIME", c.BUILD_TIME),
            ("BUILD_TIMESTAMP", c.BUILD_TIMESTAMP),
            ("GIT_COMMIT", c.GIT_COMMIT),
            ("GIT_BRANCH", c.GIT_BRANCH),
            ("COMPILER_VERSION", c.COMPILER_VERSION)] := by
  rw [constantsToDefineArgs]
  rw [parseDefineArgs, if_pos rfl,
    parseDefine_defineArg _ _ (by decide)]
  rw [parseDefineArgs, if_pos rfl,
    parseDefine_defineArg _ _ (by decide)]
  rw [parseDefineArgs, if_pos rfl,
    parseDefine_defineArg _ _ (by decide)]
  rw [parseDefineArgs, if_pos rfl,
    parseDefine_defineArg _ _ (by decide)]
  rw [parseDefineArgs, if_pos rfl,
    parseDefine_defineArg _ _ (by decide)]
  rw [parseDefineArgs, if_pos rfl,
    parseDefine_defineArg _ _ (by decide)]
  rfl
